import Mathlib

/-!
Verification of the account-service ledger of the Bank-Microservices
repository (`account-service/main.go`).

The HTTP handlers of the service are embedded as pure functions over an
explicit store state.  The PostgreSQL `accounts` table becomes a list of
rows plus the `SERIAL` id counter; `NOW()` becomes a logical clock that
advances on every committed write.  The `DECIMAL(15,2)` balance column is
embedded exactly as a rational number (fixed-precision decimals are a
subset of `Rat`; the arithmetic `balance + $1` / `balance - $1` runs in
the database on exact decimals).  A handler that returns before
`tx.Commit()` leaves the table untouched (the deferred `tx.Rollback()`
discards the transaction), so an error result carries no new store.
-/

deriving instance DecidableEq for Except

namespace AccountService

/-- One row of the `accounts` table, mirroring the Go `Account` struct and
the schema in `createTableSQL`: `id SERIAL PRIMARY KEY, customer_id
INTEGER NOT NULL, account_type VARCHAR(50) NOT NULL, balance
DECIMAL(15,2) NOT NULL DEFAULT 0.00, currency_code VARCHAR(3) NOT NULL
DEFAULT 'USD', status VARCHAR(20) NOT NULL DEFAULT 'active', created_at,
updated_at TIMESTAMP`.  Timestamps are ticks of a logical clock. -/
structure Account where
  id : Nat
  customerId : Int
  accountType : String
  balance : Rat
  currencyCode : String
  status : String
  createdAt : Nat
  updatedAt : Nat
  deriving DecidableEq

/-- The database state: the `accounts` rows, the `SERIAL` counter that
assigns the next `id`, and the logical clock standing for `NOW()`. -/
structure Store where
  accounts : List Account
  nextId : Nat
  now : Nat
  deriving DecidableEq

/-- `SELECT ... FROM accounts WHERE id = $1`: point lookup by primary
key. -/
def findAcct (s : Store) (id : Nat) : Option Account :=
  s.accounts.find? (fun a => a.id == id)

/-- A committed row update: replaces the row whose `id` matches `a'.id`
and advances the clock (`updated_at = NOW()` was evaluated at commit
time). -/
def setAcct (s : Store) (a' : Account) : Store :=
  { s with
    accounts := s.accounts.map (fun a => if a.id == a'.id then a' else a),
    now := s.now + 1 }

/-- The `balance` column of the row with the given id, when the row
exists. -/
def balanceOf (s : Store) (id : Nat) : Option Rat :=
  (findAcct s id).map Account.balance

/-- An error response `http.Error(w, msg, code)`: `badRequest` is
`http.StatusBadRequest` (400), `notFound` is `http.StatusNotFound`
(404), `internal` is `http.StatusInternalServerError` (500). -/
inductive HErr where
  | badRequest (msg : String)
  | notFound
  | internal (msg : String)
  deriving DecidableEq

/-- The HTTP status code attached to each error kind by the handlers. -/
def HErr.statusCode : HErr → Nat
  | .badRequest _ => 400
  | .notFound => 404
  | .internal _ => 500

/-- The body of a deposit/withdraw success response: the `balance` and
`currency_code` returned by the `UPDATE ... RETURNING` row.  The
`fmt.Sprintf` confirmation text is elided (no claim concerns it). -/
structure FundsResp where
  balance : Rat
  currencyCode : String
  deriving DecidableEq

/-- The JSON body of `POST /accounts` before decoding: each field of the
Go `Account` struct may be absent from the request. -/
structure CreateReq where
  customerId : Option Int
  accountType : Option String
  balance : Option Rat
  currencyCode : Option String
  status : Option String
  deriving DecidableEq

/-- `json.NewDecoder(r.Body).Decode(&account)` leaves an absent field at
the Go zero value: `0` for numbers, `""` for strings. -/
def CreateReq.decCustomerId (r : CreateReq) : Int := r.customerId.getD 0

def CreateReq.decAccountType (r : CreateReq) : String := r.accountType.getD ""

def CreateReq.decBalance (r : CreateReq) : Rat := r.balance.getD 0

def CreateReq.decCurrencyCode (r : CreateReq) : String := r.currencyCode.getD ""

def CreateReq.decStatus (r : CreateReq) : String := r.status.getD ""

/-- Column default declared in `createTableSQL`:
`currency_code VARCHAR(3) NOT NULL DEFAULT 'USD'`. -/
def schemaDefaultCurrencyCode : String := "USD"

/-- Column default declared in `createTableSQL`:
`status VARCHAR(20) NOT NULL DEFAULT 'active'`. -/
def schemaDefaultStatus : String := "active"

/-- `createAccount`: rejects `account.CustomerID == 0 ||
account.AccountType == ""`; otherwise `INSERT INTO accounts
(customer_id, account_type, balance, currency_code, status) VALUES
($1,$2,$3,$4,$5) RETURNING id, created_at, updated_at`.  All five
columns appear in the INSERT column list, so the schema column defaults
never apply to rows created here: the decoded values — `0` and `""` for
absent fields — are stored verbatim.  The store assigns `id`,
`created_at` and `updated_at`. -/
def createAccount (s : Store) (r : CreateReq) : Except HErr (Store × Account) :=
  if r.decCustomerId == 0 || r.decAccountType == "" then
    .error (.badRequest "Customer ID and account type are required")
  else
    let a : Account :=
      { id := s.nextId, customerId := r.decCustomerId,
        accountType := r.decAccountType, balance := r.decBalance,
        currencyCode := r.decCurrencyCode, status := r.decStatus,
        createdAt := s.now, updatedAt := s.now }
    .ok ({ s with
           accounts := s.accounts ++ [a],
           nextId := s.nextId + 1,
           now := s.now + 1 }, a)

/-- The fields of the `PUT /accounts/{id}` body that `updateAccount`
reads: `account.AccountType` and `account.Status` (everything else in
the decoded struct is overwritten by the RETURNING scan). -/
structure UpdateReq where
  accountType : Option String
  status : Option String
  deriving DecidableEq

/-- `updateAccount`: no validation of the decoded body; `UPDATE accounts
SET account_type = $1, status = $2, updated_at = NOW() WHERE id = $3
RETURNING ...`.  Absent body fields decode to `""` and are stored as
such. -/
def updateAccount (s : Store) (id : Nat) (r : UpdateReq) :
    Except HErr (Store × Account) :=
  match findAcct s id with
  | none => .error .notFound
  | some a =>
    let a' := { a with accountType := r.accountType.getD "",
                       status := r.status.getD "", updatedAt := s.now }
    .ok (setAcct s a', a')

/-- `depositFunds`: rejects `requestBody.Amount <= 0` with
"Amount must be positive" (400) before `db.Begin()` — i.e. before any
store access; otherwise, in one transaction, `UPDATE accounts SET
balance = balance + $1, updated_at = NOW() WHERE id = $2 RETURNING
balance, currency_code` and commit. -/
def depositFunds (s : Store) (id : Nat) (amount : Rat) :
    Except HErr (Store × FundsResp) :=
  if amount ≤ 0 then
    .error (.badRequest "Amount must be positive")
  else
    match findAcct s id with
    | none => .error .notFound
    | some a =>
      let a' := { a with balance := a.balance + amount, updatedAt := s.now }
      .ok (setAcct s a', ⟨a'.balance, a'.currencyCode⟩)

/-- `withdrawFunds`: rejects `requestBody.Amount <= 0` with
"Amount must be positive" (400) before `db.Begin()`; then in one
transaction reads `SELECT balance FROM accounts WHERE id = $1`, rejects
`currentBalance < requestBody.Amount` with "Insufficient funds" (400)
and rolls back; otherwise `UPDATE accounts SET balance = balance - $1,
updated_at = NOW() WHERE id = $2 RETURNING balance, currency_code` and
commit. -/
def withdrawFunds (s : Store) (id : Nat) (amount : Rat) :
    Except HErr (Store × FundsResp) :=
  if amount ≤ 0 then
    .error (.badRequest "Amount must be positive")
  else
    match findAcct s id with
    | none => .error .notFound
    | some a =>
      if a.balance < amount then
        .error (.badRequest "Insufficient funds")
      else
        let a' := { a with balance := a.balance - amount, updatedAt := s.now }
        .ok (setAcct s a', ⟨a'.balance, a'.currencyCode⟩)

/-- The value of one decimal digit character. -/
def digitVal (c : Char) : Option Nat :=
  if '0' ≤ c ∧ c ≤ '9' then some (c.toNat - '0'.toNat) else none

/-- A non-empty run of decimal digits, as a number. -/
def parseDigits : List Char → Option Nat
  | [] => none
  | ds =>
    ds.foldl (fun acc c => acc.bind (fun n => (digitVal c).map (fun d => 10 * n + d)))
      (some 0)

/-- PostgreSQL's integer input syntax for the text-transmitted
`LIMIT $1` / `OFFSET $2` parameters: an optional sign followed by one
or more digits; anything else raises "invalid input syntax for type
bigint". -/
def parseBigint (str : String) : Option Int :=
  match str.data with
  | '-' :: ds => (parseDigits ds).map (fun n => -(n : Int))
  | '+' :: ds => (parseDigits ds).map (fun n => (n : Int))
  | ds => (parseDigits ds).map (fun n => (n : Int))

/-- `getAccounts`: the `limit`/`offset` query strings default to
`"100"`/`"0"` when empty; the raw strings are handed unvalidated to
`LIMIT $1 OFFSET $2`.  PostgreSQL rejects a non-integer value
("invalid input syntax") and a negative value ("must not be negative");
the handler surfaces every `db.Query` error as
`http.StatusInternalServerError`. -/
def getAccounts (s : Store) (limit offs : String) :
    Except HErr (List Account) :=
  let l := if limit = "" then "100" else limit
  let o := if offs = "" then "0" else offs
  match parseBigint l, parseBigint o with
  | some li, some off =>
    if li < 0 || off < 0 then
      .error (.internal "LIMIT must not be negative")
    else
      .ok ((s.accounts.drop off.toNat).take li.toNat)
  | _, _ => .error (.internal "invalid input syntax for type bigint")

/-- One funds-moving request against a fixed account id. -/
inductive Op where
  | deposit (amount : Rat)
  | withdraw (amount : Rat)
  deriving DecidableEq

/-- Runs one request; a handler error leaves the store as it was (the
transaction rolled back or was never begun). -/
def applyOp (id : Nat) (s : Store) : Op → Store
  | .deposit amount =>
    match depositFunds s id amount with
    | .ok (s', _) => s'
    | .error _ => s
  | .withdraw amount =>
    match withdrawFunds s id amount with
    | .ok (s', _) => s'
    | .error _ => s

/-- Runs a sequence of requests left to right. -/
def applyOps (id : Nat) (s : Store) (ops : List Op) : Store :=
  ops.foldl (applyOp id) s

/-- A `find?` hit always satisfies the lookup predicate: the row returned
for an id carries that id. -/
theorem findAcct_id {s : Store} {id : Nat} {a : Account}
    (h : findAcct s id = some a) : a.id = id := by
  have := List.find?_some h
  simpa using this

/-- Row replacement versus lookup, at the list level: replacing every row
whose id is `a'.id` rewrites exactly the lookups for that id. -/
theorem find_map_replace (a' : Account) (id : Nat) (l : List Account) :
    (l.map (fun a => if a.id == a'.id then a' else a)).find? (fun a => a.id == id)
      = if a'.id = id then (l.find? (fun a => a.id == id)).map (fun _ => a')
        else l.find? (fun a => a.id == id) := by
  induction l with
  | nil => by_cases hid : a'.id = id <;> simp [hid]
  | cons b t ih =>
    simp only [List.map_cons]
    by_cases hb : b.id = a'.id
    · have hb' : (b.id == a'.id) = true := by simpa using hb
      rw [if_pos hb']
      by_cases hid : a'.id = id
      · rw [List.find?_cons_of_pos _ (by simpa using hid), if_pos hid,
            List.find?_cons_of_pos _ (by simpa using hb.trans hid)]
        rfl
      · rw [List.find?_cons_of_neg _ (by simpa using hid), if_neg hid,
            List.find?_cons_of_neg _
              (by simpa using fun h => hid (hb.symm.trans h)), ih,
            if_neg hid]
    · have hb' : ¬ (b.id == a'.id) = true := by simpa using hb
      rw [if_neg hb']
      by_cases hbid : b.id = id
      · have hne : ¬ a'.id = id := fun h => hb (hbid.trans h.symm)
        rw [List.find?_cons_of_pos _ (by simpa using hbid), if_neg hne,
            List.find?_cons_of_pos _ (by simpa using hbid)]
      · rw [List.find?_cons_of_neg _ (by simpa using hbid), ih,
            List.find?_cons_of_neg _ (by simpa using hbid)]

/-- Lookup after a committed row update: the updated row is returned for
its own id (when it existed), and every other id is untouched. -/
theorem findAcct_setAcct (s : Store) (a' : Account) (id : Nat) :
    findAcct (setAcct s a') id
      = if a'.id = id then (findAcct s id).map (fun _ => a')
        else findAcct s id := by
  simp only [findAcct, setAcct]
  exact find_map_replace a' id s.accounts

/-!
The two-concurrent-withdrawals scenario.  Each `withdrawFunds` handler
runs one database transaction consisting of two statements: the
`SELECT balance` (which under PostgreSQL's default READ COMMITTED
isolation takes no row lock, so it may read a snapshot that is stale by
commit time) and, if `currentBalance < amount` fails to trigger, the
`UPDATE accounts SET balance = balance - $1` followed by `tx.Commit()`
(the UPDATE recomputes from the latest committed row after acquiring
the row lock).  The model below interleaves the two statements of two
such transactions over one shared row. -/

/-- The phase of one withdraw transaction: not yet started its SELECT,
SELECT done (holding the session-local `currentBalance` snapshot),
committed its UPDATE, or aborted with "Insufficient funds". -/
inductive TxPhase where
  | start
  | readDone (snap : Rat)
  | committed
  | aborted
  deriving DecidableEq

/-- Shared row balance plus the phase of each of the two transactions. -/
structure RaceState where
  balance : Rat
  tx1 : TxPhase
  tx2 : TxPhase
  deriving DecidableEq

/-- Atomic events of the interleaving: `read i` is session i's
`SELECT balance`; `fin i` is the rest of session i's handler — the
`currentBalance < amount` check against its snapshot, then on success
the `UPDATE` (subtracting from the current committed balance) and
`tx.Commit()`. -/
inductive RaceLabel where
  | read1
  | fin1
  | read2
  | fin2
  deriving DecidableEq

/-- One step of the interleaved execution; an event out of phase order
is a no-op. -/
def raceStep (amount : Rat) (st : RaceState) : RaceLabel → RaceState
  | .read1 =>
    match st.tx1 with
    | .start => { st with tx1 := .readDone st.balance }
    | _ => st
  | .fin1 =>
    match st.tx1 with
    | .readDone snap =>
      if snap < amount then { st with tx1 := .aborted }
      else { st with tx1 := .committed, balance := st.balance - amount }
    | _ => st
  | .read2 =>
    match st.tx2 with
    | .start => { st with tx2 := .readDone st.balance }
    | _ => st
  | .fin2 =>
    match st.tx2 with
    | .readDone snap =>
      if snap < amount then { st with tx2 := .aborted }
      else { st with tx2 := .committed, balance := st.balance - amount }
    | _ => st

/-- Runs a schedule of events over the shared row. -/
def raceRun (amount : Rat) (st : RaceState) (sched : List RaceLabel) : RaceState :=
  sched.foldl (raceStep amount) st

/-! Concrete states used to evaluate the handlers on closed inputs. -/

/-- A sample existing account. -/
def exAcct : Account :=
  { id := 1, customerId := 7, accountType := "checking", balance := 5,
    currencyCode := "USD", status := "active", createdAt := 0, updatedAt := 0 }

/-- A store holding only `exAcct`. -/
def exStore : Store :=
  { accounts := [exAcct], nextId := 2, now := 1 }

/-- An account whose balance is exactly 0. -/
def zeroAcct : Account :=
  { id := 1, customerId := 7, accountType := "checking", balance := 0,
    currencyCode := "USD", status := "active", createdAt := 0, updatedAt := 0 }

/-- A store holding only `zeroAcct`. -/
def zeroStore : Store :=
  { accounts := [zeroAcct], nextId := 2, now := 1 }

/-- The row `createAccount` inserts for the request `{customer_id: 7,
account_type: "checking", balance: -5}` sent to `exStore`. -/
def negAcct : Account :=
  { id := 2, customerId := 7, accountType := "checking", balance := -5,
    currencyCode := "", status := "", createdAt := 1, updatedAt := 1 }

/-- `exStore` after a deposit of 7 into account 1. -/
def exS1 : Store :=
  { accounts := [{ exAcct with balance := 12, updatedAt := 1 }],
    nextId := 2, now := 2 }

/-- `exS1` after a withdrawal of 7 from account 1. -/
def exS2 : Store :=
  { accounts := [{ exAcct with balance := 5, updatedAt := 2 }],
    nextId := 2, now := 3 }


theorem balanceOf_eq_some {s : Store} {id : Nat} {b : Rat} :
    balanceOf s id = some b ↔ ∃ a, findAcct s id = some a ∧ a.balance = b := by
  simp [balanceOf]

theorem depositFunds_eq_ok {s : Store} {id : Nat} {a : Account} {amount : Rat}
    (ha : findAcct s id = some a) (hpos : 0 < amount) :
    depositFunds s id amount
      = Except.ok (setAcct s { a with balance := a.balance + amount, updatedAt := s.now },
          ⟨a.balance + amount, a.currencyCode⟩) := by
  unfold depositFunds
  rw [if_neg (not_le.mpr hpos), ha]

theorem withdrawFunds_eq_ok {s : Store} {id : Nat} {a : Account} {amount : Rat}
    (ha : findAcct s id = some a) (hpos : 0 < amount) (hge : amount ≤ a.balance) :
    withdrawFunds s id amount
      = Except.ok (setAcct s { a with balance := a.balance - amount, updatedAt := s.now },
          ⟨a.balance - amount, a.currencyCode⟩) := by
  unfold withdrawFunds
  rw [if_neg (not_le.mpr hpos), ha]
  simp only [if_neg (not_lt.mpr hge)]

theorem withdrawFunds_eq_insufficient {s : Store} {id : Nat} {a : Account} {amount : Rat}
    (ha : findAcct s id = some a) (hpos : 0 < amount) (hlt : a.balance < amount) :
    withdrawFunds s id amount = Except.error (HErr.badRequest "Insufficient funds") := by
  unfold withdrawFunds
  rw [if_neg (not_le.mpr hpos), ha]
  simp only [if_pos hlt]

theorem depositFunds_ok_inv {s s1 : Store} {id : Nat} {amount : Rat} {r : FundsResp}
    (h : depositFunds s id amount = Except.ok (s1, r)) :
    ∃ a, findAcct s id = some a ∧ 0 < amount ∧
      s1 = setAcct s { a with balance := a.balance + amount, updatedAt := s.now } ∧
      r = ⟨a.balance + amount, a.currencyCode⟩ := by
  unfold depositFunds at h
  split at h
  · exact absurd h (by simp)
  · next hle =>
    cases hfind : findAcct s id with
    | none => rw [hfind] at h; exact absurd h (by simp)
    | some a =>
      rw [hfind] at h
      simp only [Except.ok.injEq, Prod.mk.injEq] at h
      exact ⟨a, rfl, not_le.mp hle, h.1.symm, h.2.symm⟩

theorem withdrawFunds_ok_inv {s s1 : Store} {id : Nat} {amount : Rat} {r : FundsResp}
    (h : withdrawFunds s id amount = Except.ok (s1, r)) :
    ∃ a, findAcct s id = some a ∧ 0 < amount ∧ amount ≤ a.balance ∧
      s1 = setAcct s { a with balance := a.balance - amount, updatedAt := s.now } ∧
      r = ⟨a.balance - amount, a.currencyCode⟩ := by
  unfold withdrawFunds at h
  split at h
  · exact absurd h (by simp)
  · next hle =>
    split at h
    · exact absurd h (by simp)
    · next a hfind =>
      split at h
      · exact absurd h (by simp)
      · next hnlt =>
        simp only [Except.ok.injEq, Prod.mk.injEq] at h
        exact ⟨a, hfind, not_le.mp hle, not_lt.mp hnlt, h.1.symm, h.2.symm⟩



/-- One request preserves existence and non-negativity of the account's
balance. -/
theorem applyOp_nonneg (id : Nat) (s : Store) (b : Rat)
    (h : balanceOf s id = some b) (hb : 0 ≤ b) (op : Op) :
    ∃ b', balanceOf (applyOp id s op) id = some b' ∧ 0 ≤ b' := by
  obtain ⟨a, ha, hab⟩ := balanceOf_eq_some.mp h
  have haid : a.id = id := findAcct_id ha
  cases op with
  | deposit amount =>
    by_cases hpos : 0 < amount
    · have heq := depositFunds_eq_ok ha hpos
      refine ⟨b + amount, ?_, by linarith⟩
      simp only [applyOp, heq]
      simp [balanceOf, findAcct_setAcct, haid, ha, hab]
    · have herr : depositFunds s id amount
          = Except.error (HErr.badRequest "Amount must be positive") := by
        unfold depositFunds
        rw [if_pos (not_lt.mp hpos)]
      exact ⟨b, by simp [applyOp, herr, h], hb⟩
  | withdraw amount =>
    by_cases hpos : 0 < amount
    · by_cases hlt : a.balance < amount
      · have herr := withdrawFunds_eq_insufficient ha hpos hlt
        exact ⟨b, by simp [applyOp, herr, h], hb⟩
      · have heq := withdrawFunds_eq_ok ha hpos (not_lt.mp hlt)
        have hge : amount ≤ b := hab ▸ not_lt.mp hlt
        refine ⟨b - amount, ?_, by linarith⟩
        simp only [applyOp, heq]
        simp [balanceOf, findAcct_setAcct, haid, ha, hab]
    · have herr : withdrawFunds s id amount
          = Except.error (HErr.badRequest "Amount must be positive") := by
        unfold withdrawFunds
        rw [if_pos (not_lt.mp hpos)]
      exact ⟨b, by simp [applyOp, herr, h], hb⟩

/-- Sequences of requests preserve existence and non-negativity of the
balance. -/
theorem applyOps_nonneg (id : Nat) (ops : List Op) :
    ∀ s b, balanceOf s id = some b → 0 ≤ b →
      ∃ b', balanceOf (applyOps id s ops) id = some b' ∧ 0 ≤ b' := by
  induction ops with
  | nil => exact fun s b h hb => ⟨b, h, hb⟩
  | cons op rest ih =>
    intro s b h hb
    obtain ⟨b', h', hb'⟩ := applyOp_nonneg id s b h hb op
    simpa [applyOps] using ih _ _ h' hb'

/-- A withdrawal exceeding the (non-negative) current balance hits the
`currentBalance < requestBody.Amount` branch. -/
theorem withdraw_over_balance {s : Store} {id : Nat} {b amount : Rat}
    (h : balanceOf s id = some b) (hb : 0 ≤ b) (hlt : b < amount) :
    withdrawFunds s id amount
      = Except.error (HErr.badRequest "Insufficient funds") := by
  obtain ⟨a, ha, hab⟩ := balanceOf_eq_some.mp h
  exact withdrawFunds_eq_insufficient ha (by linarith) (by rw [hab]; exact hlt)



/-- C1: for every account starting at a balance `b0 ≥ 0` and every
sequence of deposit and withdraw requests applied to it, the balance
after the sequence — hence after each applied withdrawal, every prefix
being itself such a sequence — exists and is `≥ 0`; and at any such
reachable state, a withdrawal whose amount exceeds the current balance
is rejected with the "Insufficient funds" (400) error and leaves the
store, hence the account, unchanged. -/
theorem withdrawals_keep_balance_nonneg (id : Nat) (s : Store) (b0 : Rat)
    (h0 : balanceOf s id = some b0) (hb0 : 0 ≤ b0) (ops : List Op) :
    ∃ b, balanceOf (applyOps id s ops) id = some b ∧ 0 ≤ b ∧
      ∀ amount, b < amount →
        withdrawFunds (applyOps id s ops) id amount
            = Except.error (HErr.badRequest "Insufficient funds") ∧
          applyOp id (applyOps id s ops) (Op.withdraw amount)
            = applyOps id s ops := by
  obtain ⟨b, h, hb⟩ := applyOps_nonneg id ops s b0 h0 hb0
  refine ⟨b, h, hb, fun amount hlt => ?_⟩
  have herr := withdraw_over_balance h hb hlt
  exact ⟨herr, by simp [applyOp, herr]⟩

/-- C5: any request with `amount ≤ 0` is rejected with
"Amount must be positive" (400) for deposits and withdrawals alike, on
every store — including stores without the account, since the check
precedes `db.Begin()` — and with no state change; while a deposit of
`0.01` on an existing account succeeds. -/
theorem amount_validation_boundary :
    (∀ (s : Store) (id : Nat) (amount : Rat), amount ≤ 0 →
        depositFunds s id amount
            = Except.error (HErr.badRequest "Amount must be positive") ∧
          withdrawFunds s id amount
            = Except.error (HErr.badRequest "Amount must be positive") ∧
          applyOp id s (Op.deposit amount) = s ∧
          applyOp id s (Op.withdraw amount) = s) ∧
    ∀ (s : Store) (id : Nat) (a : Account), findAcct s id = some a →
      depositFunds s id (1/100)
        = Except.ok
            (setAcct s { a with balance := a.balance + 1/100, updatedAt := s.now },
              ⟨a.balance + 1/100, a.currencyCode⟩) := by
  constructor
  · intro s id amount hle
    have hdep : depositFunds s id amount
        = Except.error (HErr.badRequest "Amount must be positive") := by
      unfold depositFunds
      rw [if_pos hle]
    have hwit : withdrawFunds s id amount
        = Except.error (HErr.badRequest "Amount must be positive") := by
      unfold withdrawFunds
      rw [if_pos hle]
    exact ⟨hdep, hwit, by simp [applyOp, hdep], by simp [applyOp, hwit]⟩
  · intro s id a ha
    exact depositFunds_eq_ok ha (by norm_num)

/-- C7: a successful deposit of `amt` followed by a successful withdrawal
of the same `amt`, with no other mutation in between, restores the
account's balance to its value before the deposit. -/
theorem deposit_then_withdraw_conserves (s s1 s2 : Store) (id : Nat)
    (amt : Rat) (r1 r2 : FundsResp)
    (h1 : depositFunds s id amt = Except.ok (s1, r1))
    (h2 : withdrawFunds s1 id amt = Except.ok (s2, r2)) :
    balanceOf s2 id = balanceOf s id := by
  obtain ⟨a, ha, hpos, hs1, hr1⟩ := depositFunds_ok_inv h1
  obtain ⟨a1, ha1, hpos1, hge1, hs2, hr2⟩ := withdrawFunds_ok_inv h2
  have haid : a.id = id := findAcct_id ha
  have haid1 : a1.id = id := findAcct_id ha1
  have hfind1 : findAcct s1 id
      = some { a with balance := a.balance + amt, updatedAt := s.now } := by
    subst hs1
    rw [findAcct_setAcct]
    simp [haid, ha]
  rw [hfind1] at ha1
  injection ha1 with ha1'
  have hbal1 : a1.balance = a.balance + amt := by rw [← ha1']
  subst hs2
  unfold balanceOf
  rw [findAcct_setAcct]
  simp [haid1, hfind1, ha, hbal1, add_sub_cancel_right]



/-- C3 (amended): `createAccount` rejects a missing (zero-decoded)
`customerId` or a missing/empty `accountType` with the 400 validation
error; an omitted balance decodes to `0` and is stored as `0`; a
negative initial balance is not rejected — the row is inserted with the
negative balance verbatim. -/
theorem createAccount_validation (s : Store) (r : CreateReq) :
    (r.decCustomerId = 0 ∨ r.decAccountType = "" →
      createAccount s r
        = Except.error (HErr.badRequest "Customer ID and account type are required")) ∧
    (r.decCustomerId ≠ 0 → r.decAccountType ≠ "" → r.balance = none →
      ∃ s' a, createAccount s r = Except.ok (s', a) ∧ a.balance = 0) ∧
    (∀ bneg : Rat, r.decCustomerId ≠ 0 → r.decAccountType ≠ "" →
      r.balance = some bneg → bneg < 0 →
      ∃ s' a, createAccount s r = Except.ok (s', a) ∧ a.balance = bneg) := by
  refine ⟨?_, ?_, ?_⟩
  · intro h
    unfold createAccount
    rw [if_pos]
    rcases h with h | h <;> simp [h]
  · intro h1 h2 hb
    unfold createAccount
    rw [if_neg (by simp [h1, h2])]
    exact ⟨_, _, rfl, by simp [CreateReq.decBalance, hb]⟩
  · intro bneg h1 h2 hb hneg
    unfold createAccount
    rw [if_neg (by simp [h1, h2])]
    exact ⟨_, _, rfl, by simp [CreateReq.decBalance, hb]⟩

/-- C6: for an existing account, `updateAccount` succeeds, returning and
storing the row with `account_type`, `status` and `updated_at` replaced
and every other column — `id`, `customer_id`, `balance`,
`currency_code`, `created_at` — unchanged. -/
theorem updateAccount_frame (s : Store) (id : Nat) (r : UpdateReq) (a : Account)
    (ha : findAcct s id = some a) :
    ∃ s' a', updateAccount s id r = Except.ok (s', a') ∧
      a'.accountType = r.accountType.getD "" ∧
      a'.status = r.status.getD "" ∧
      a'.updatedAt = s.now ∧
      a'.id = a.id ∧ a'.customerId = a.customerId ∧ a'.balance = a.balance ∧
      a'.currencyCode = a.currencyCode ∧ a'.createdAt = a.createdAt ∧
      findAcct s' id = some a' := by
  have heq : updateAccount s id r
      = Except.ok (setAcct s
          { a with
            accountType := r.accountType.getD ""
            status := r.status.getD ""
            updatedAt := s.now },
          { a with
            accountType := r.accountType.getD ""
            status := r.status.getD ""
            updatedAt := s.now }) := by
    unfold updateAccount
    rw [ha]
  refine ⟨_, _, heq, rfl, rfl, rfl, rfl, rfl, rfl, rfl, rfl, ?_⟩
  rw [findAcct_setAcct]
  simp [findAcct_id ha, ha]

/-- C10: `updateAccount` performs no validation of its own: for an
existing account, any caller-supplied `accountType` and `status` — the
empty strings included — are accepted and stored, even though
`createAccount` rejects an empty `accountType`. -/
theorem updateAccount_accepts_anything (s : Store) (id : Nat) (a : Account)
    (t st : String) (ha : findAcct s id = some a) :
    (∃ s' a', updateAccount s id ⟨some t, some st⟩ = Except.ok (s', a') ∧
       a'.accountType = t ∧ a'.status = st ∧ findAcct s' id = some a') ∧
    ∀ (r : CreateReq), r.decAccountType = "" →
      createAccount s r
        = Except.error (HErr.badRequest "Customer ID and account type are required") := by
  constructor
  · have heq : updateAccount s id ⟨some t, some st⟩
        = Except.ok (setAcct s { a with accountType := t, status := st, updatedAt := s.now },
            { a with accountType := t, status := st, updatedAt := s.now }) := by
      unfold updateAccount
      rw [ha]
      rfl
    refine ⟨_, _, heq, rfl, rfl, ?_⟩
    rw [findAcct_setAcct]
    simp [findAcct_id ha, ha]
  · intro r hr
    unfold createAccount
    rw [if_pos (by simp [hr])]



/-- C8 (amended): `getAccounts` defaults `limit` to 100 and `offset` to 0
when the query strings are absent; it performs no validation of
supplied values — a non-integer or a negative `limit`/`offset` string
is handed to the store, whose rejection surfaces as an internal error
(HTTP 500), not as a validation error (HTTP 400). -/
theorem getAccounts_defaults_and_invalid (s : Store) (bad neg : String) (n : Int)
    (hbadne : bad ≠ "") (hbad : parseBigint bad = none)
    (hneg : parseBigint neg = some n) (hn : n < 0) :
    getAccounts s "" "" = Except.ok (s.accounts.take 100) ∧
    getAccounts s bad ""
        = Except.error (HErr.internal "invalid input syntax for type bigint") ∧
    getAccounts s "" bad
        = Except.error (HErr.internal "invalid input syntax for type bigint") ∧
    getAccounts s neg ""
        = Except.error (HErr.internal "LIMIT must not be negative") ∧
    getAccounts s "" neg
        = Except.error (HErr.internal "LIMIT must not be negative") ∧
    (HErr.internal "invalid input syntax for type bigint").statusCode = 500 ∧
    (HErr.internal "LIMIT must not be negative").statusCode = 500 := by
  have h100 : parseBigint "100" = some 100 := by decide
  have h0 : parseBigint "0" = some 0 := by decide
  have hnegne : neg ≠ "" := by
    intro h
    rw [h, show parseBigint "" = (none : Option Int) from rfl] at hneg
    exact Option.noConfusion hneg
  refine ⟨rfl, ?_, ?_, ?_, ?_, rfl, rfl⟩
  · simp only [getAccounts]
    rw [if_neg hbadne]
    simp [hbad]
  · simp only [getAccounts]
    rw [if_neg hbadne]
    simp [hbad, h100]
  · simp only [getAccounts]
    rw [if_neg hnegne]
    simp [hneg, h0, hn]
  · simp only [getAccounts]
    rw [if_neg hnegne]
    simp [hneg, h100, hn]

/-- C9 (amended): for an existing account whose balance is positive, a
withdrawal of exactly the current balance succeeds and leaves the
balance at 0; and the "Insufficient funds" rejection occurs exactly for
the amounts strictly exceeding the balance. -/
theorem withdraw_exact_balance (s : Store) (id : Nat) (a : Account)
    (ha : findAcct s id = some a) (hpos : 0 < a.balance) :
    (∃ s', withdrawFunds s id a.balance = Except.ok (s', ⟨0, a.currencyCode⟩) ∧
       balanceOf s' id = some 0) ∧
    ∀ amount, withdrawFunds s id amount
        = Except.error (HErr.badRequest "Insufficient funds") ↔ a.balance < amount := by
  constructor
  · have heq := withdrawFunds_eq_ok ha hpos le_rfl
    rw [sub_self] at heq
    refine ⟨_, heq, ?_⟩
    unfold balanceOf
    rw [findAcct_setAcct]
    simp [findAcct_id ha, ha]
  · intro amount
    constructor
    · intro h
      by_contra hnlt
      have hge : amount ≤ a.balance := not_lt.mp hnlt
      by_cases hp : 0 < amount
      · rw [withdrawFunds_eq_ok ha hp hge] at h
        exact absurd h (by simp)
      · have herr : withdrawFunds s id amount
            = Except.error (HErr.badRequest "Amount must be positive") := by
          unfold withdrawFunds
          rw [if_pos (not_lt.mp hp)]
        rw [herr] at h
        exact absurd h (by decide)
    · intro hlt
      exact withdrawFunds_eq_insufficient ha (lt_trans hpos hlt) hlt

section ConcreteRuns

attribute [local semireducible] Rat.add Rat.sub

/-- C2: the interleaving the code's SELECT-then-UPDATE transaction shape
admits under READ COMMITTED isolation.  When both withdrawals of 60
SELECT the balance 100 before either UPDATE commits, both pass the
`currentBalance < amount` check and both commit, driving the balance to
−20 — the outcome the claim says must never happen; only the serialized
schedule yields one success, one "Insufficient funds" abort and a final
balance of 40. -/
theorem concurrent_withdrawals_race :
    raceRun 60 ⟨100, TxPhase.start, TxPhase.start⟩
        [RaceLabel.read1, RaceLabel.read2, RaceLabel.fin1, RaceLabel.fin2]
      = ⟨-20, TxPhase.committed, TxPhase.committed⟩ ∧
    raceRun 60 ⟨100, TxPhase.start, TxPhase.start⟩
        [RaceLabel.read1, RaceLabel.fin1, RaceLabel.read2, RaceLabel.fin2]
      = ⟨40, TxPhase.committed, TxPhase.aborted⟩ := by
  constructor
  · decide
  · decide


/-- C3 counterexample: the create request `{customer_id: 7, account_type:
"checking", balance: -5}` is not rejected — `createAccount` inserts the
row with the negative balance. -/
theorem createAccount_negative_balance_accepted :
    createAccount exStore
        { customerId := some 7, accountType := some "checking",
          balance := some (-5), currencyCode := none, status := none }
      = Except.ok ({ accounts := [exAcct, negAcct], nextId := 3, now := 2 }, negAcct) ∧
    negAcct.balance < 0 := by decide

/-- C4: with `currency_code` and `status` omitted from the create request,
the inserted row carries the decoded empty strings, not the schema
defaults `USD` / `active`: the handler's INSERT lists those columns, so
the declared column defaults never fire. -/
theorem create_omitted_fields_miss_schema_defaults :
    (createAccount exStore
        { customerId := some 7, accountType := some "checking",
          balance := none, currencyCode := none, status := none }).map
        (fun p => (p.2.currencyCode, p.2.status))
      = Except.ok ("", "") ∧
    ("" : String) ≠ schemaDefaultCurrencyCode ∧
    ("" : String) ≠ schemaDefaultStatus := by decide

/-- C8 counterexample: the supplied limit `-1` is not a non-negative
integer, yet the response is the store's 500 internal error, not a 400
validation error. -/
theorem getAccounts_invalid_limit_not_validation :
    getAccounts exStore "-1" ""
      = Except.error (HErr.internal "LIMIT must not be negative") ∧
    (HErr.internal "LIMIT must not be negative").statusCode ≠ 400 := by decide

/-- C9 counterexample: on an existing account whose balance is 0, the
withdrawal of exactly the current balance (0) does not succeed — it is
rejected by the amount validation. -/
theorem withdraw_exact_zero_balance_rejected :
    balanceOf zeroStore 1 = some 0 ∧
    withdrawFunds zeroStore 1 0
      = Except.error (HErr.badRequest "Amount must be positive") := by decide

/-- Witness for `withdrawals_keep_balance_nonneg` (C1) at a concrete store
and request sequence. -/
theorem withdrawals_keep_balance_nonneg_witness :
    ∃ b, balanceOf (applyOps 1 exStore [Op.deposit 3, Op.withdraw 2]) 1 = some b ∧ 0 ≤ b ∧
      ∀ amount, b < amount →
        withdrawFunds (applyOps 1 exStore [Op.deposit 3, Op.withdraw 2]) 1 amount
            = Except.error (HErr.badRequest "Insufficient funds") ∧
          applyOp 1 (applyOps 1 exStore [Op.deposit 3, Op.withdraw 2]) (Op.withdraw amount)
            = applyOps 1 exStore [Op.deposit 3, Op.withdraw 2] :=
  withdrawals_keep_balance_nonneg 1 exStore 5 (by decide) (by decide)
    [Op.deposit 3, Op.withdraw 2]

/-- Witness for `createAccount_validation` (C3) at concrete requests. -/
theorem createAccount_validation_witness :
    createAccount exStore
        { customerId := none, accountType := some "checking",
          balance := none, currencyCode := none, status := none }
      = Except.error (HErr.badRequest "Customer ID and account type are required") ∧
    (∃ s' a, createAccount exStore
        { customerId := some 7, accountType := some "checking",
          balance := none, currencyCode := none, status := none }
      = Except.ok (s', a) ∧ a.balance = 0) ∧
    ∃ s' a, createAccount exStore
        { customerId := some 7, accountType := some "checking",
          balance := some (-5), currencyCode := none, status := none }
      = Except.ok (s', a) ∧ a.balance = -5 :=
  ⟨(createAccount_validation exStore _).1 (Or.inl (by decide)),
   (createAccount_validation exStore _).2.1 (by decide) (by decide) rfl,
   (createAccount_validation exStore _).2.2 (-5) (by decide) (by decide) rfl (by norm_num)⟩

/-- Witness for `amount_validation_boundary` (C5) at concrete amounts. -/
theorem amount_validation_boundary_witness :
    depositFunds exStore 1 0 = Except.error (HErr.badRequest "Amount must be positive") ∧
    withdrawFunds exStore 1 (-5) = Except.error (HErr.badRequest "Amount must be positive") ∧
    depositFunds exStore 1 (1/100)
      = Except.ok (setAcct exStore
          { exAcct with balance := exAcct.balance + 1/100, updatedAt := exStore.now },
          ⟨exAcct.balance + 1/100, exAcct.currencyCode⟩) :=
  ⟨(amount_validation_boundary.1 exStore 1 0 (by norm_num)).1,
   (amount_validation_boundary.1 exStore 1 (-5) (by norm_num)).2.1,
   amount_validation_boundary.2 exStore 1 exAcct (by decide)⟩

/-- Witness for `updateAccount_frame` (C6) at a concrete store. -/
theorem updateAccount_frame_witness :
    ∃ s' a', updateAccount exStore 1 ⟨some "savings", some "inactive"⟩
        = Except.ok (s', a') ∧
      a'.accountType = (some "savings").getD "" ∧
      a'.status = (some "inactive").getD "" ∧
      a'.updatedAt = exStore.now ∧
      a'.id = exAcct.id ∧ a'.customerId = exAcct.customerId ∧
      a'.balance = exAcct.balance ∧
      a'.currencyCode = exAcct.currencyCode ∧ a'.createdAt = exAcct.createdAt ∧
      findAcct s' 1 = some a' :=
  updateAccount_frame exStore 1 ⟨some "savings", some "inactive"⟩ exAcct (by decide)

/-- Witness for `deposit_then_withdraw_conserves` (C7): deposit 7 then
withdraw 7 on the sample account restores the original balance. -/
theorem deposit_then_withdraw_conserves_witness :
    balanceOf exS2 1 = balanceOf exStore 1 :=
  deposit_then_withdraw_conserves exStore exS1 exS2 1 7 ⟨12, "USD"⟩ ⟨5, "USD"⟩
    (by decide) (by decide)

/-- Witness for `getAccounts_defaults_and_invalid` (C8) at the strings
"abc" and "-1". -/
theorem getAccounts_defaults_and_invalid_witness :
    getAccounts exStore "" "" = Except.ok (exStore.accounts.take 100) ∧
    getAccounts exStore "abc" ""
        = Except.error (HErr.internal "invalid input syntax for type bigint") ∧
    getAccounts exStore "" "abc"
        = Except.error (HErr.internal "invalid input syntax for type bigint") ∧
    getAccounts exStore "-1" ""
        = Except.error (HErr.internal "LIMIT must not be negative") ∧
    getAccounts exStore "" "-1"
        = Except.error (HErr.internal "LIMIT must not be negative") ∧
    (HErr.internal "invalid input syntax for type bigint").statusCode = 500 ∧
    (HErr.internal "LIMIT must not be negative").statusCode = 500 :=
  getAccounts_defaults_and_invalid exStore "abc" "-1" (-1)
    (by decide) (by decide) (by decide) (by decide)

/-- Witness for `withdraw_exact_balance` (C9) at the sample account. -/
theorem withdraw_exact_balance_witness :
    (∃ s', withdrawFunds exStore 1 exAcct.balance
        = Except.ok (s', ⟨0, exAcct.currencyCode⟩) ∧
       balanceOf s' 1 = some 0) ∧
    ∀ amount, withdrawFunds exStore 1 amount
        = Except.error (HErr.badRequest "Insufficient funds") ↔ exAcct.balance < amount :=
  withdraw_exact_balance exStore 1 exAcct (by decide) (by decide)

/-- Witness for `updateAccount_accepts_anything` (C10) with empty strings. -/
theorem updateAccount_accepts_anything_witness :
    (∃ s' a', updateAccount exStore 1 ⟨some "", some ""⟩ = Except.ok (s', a') ∧
       a'.accountType = "" ∧ a'.status = "" ∧ findAcct s' 1 = some a') ∧
    ∀ (r : CreateReq), r.decAccountType = "" →
      createAccount exStore r
        = Except.error (HErr.badRequest "Customer ID and account type are required") :=
  updateAccount_accepts_anything exStore 1 exAcct "" "" (by decide)

end ConcreteRuns

end AccountService
